import Mathlib

/-
Shallow embedding of `src/vacuum.py` (Xiaomi vacuum platform adapter,
class `MiroboVacuum`).

Modelling conventions:
* Python values that flow through the fan-speed dictionaries are mixed-type
  (int keys, str values, and `None` before the first poll), so they are
  embedded as the inductive `PyVal`; Python `==` between an int and a str is
  `False`, which the derived equality on `PyVal` reproduces.
* A Python dict is an association list; `k in d` and `d[k]` are `dictLookup`.
  The dict comprehension `\x7bv: k for k, v in d.items()\x7d` is `dictReverse`
  (its keys here - the four speed names - are distinct, so the last-wins
  duplicate semantics of a comprehension cannot fire).
* Logging (`_LOGGER.error` / `_LOGGER.debug`) is modelled by returning the
  list of emitted `LogEntry` values alongside the result.
* A Python function that may raise an uncaught exception is embedded with
  result type `Except`; a total embedding means the source cannot raise.
* The blocking device-client call made through
  `hass.async_add_executor_job(partial(func, ...))` is modelled by passing
  the call's outcome (`Except String Unit`: success, or a raised
  `DeviceException` with its message) as an explicit argument.
-/

namespace XiaomiVacuum

/-- Embedded Python values: `None`, `int`, and `str`. Python equality between
values of different types among these is `False`, matching the derived
`DecidableEq`. -/
inductive PyVal where
  | none
  | int (n : Int)
  | str (s : String)
  deriving DecidableEq, Repr

/-- Python dict membership / subscription on an association list:
`dictLookup d k = some v` iff `k in d` and `d[k] == v`. -/
def dictLookup : List (PyVal × PyVal) → PyVal → Option PyVal
  | [], _ => Option.none
  | (k, v) :: rest, key => if k = key then some v else dictLookup rest key

/-- The dict comprehension `\x7bv: k for k, v in d.items()\x7d` from
`update` (line 249): swaps every key/value pair. -/
def dictReverse (d : List (PyVal × PyVal)) : List (PyVal × PyVal) :=
  d.map (fun p => (p.2, p.1))

/-- Platform state label `STATE_CLEANING`, imported by the source from
`homeassistant.components.vacuum` (external platform contract). -/
def STATE_CLEANING : String := "cleaning"

/-- Platform state label `STATE_IDLE` (external platform contract). -/
def STATE_IDLE : String := "idle"

/-- Platform state label `STATE_PAUSED` (external platform contract). -/
def STATE_PAUSED : String := "paused"

/-- Platform state label `STATE_ERROR` (external platform contract). -/
def STATE_ERROR : String := "error"

/-- Platform state label `STATE_RETURNING` (external platform contract). -/
def STATE_RETURNING : String := "returning"

/-- Platform state label `STATE_DOCKED` (external platform contract). -/
def STATE_DOCKED : String := "docked"

/-- `STATE_CODE_TO_STATE` (vacuum.py lines 66-73): status code to platform
state label. Keys are plain ints (the lookup argument
`int(self.vacuum_state)` is always an int), so no `PyVal` is needed here. -/
def STATE_CODE_TO_STATE : List (Int × String) :=
  [(1, STATE_CLEANING),
   (2, STATE_IDLE),
   (3, STATE_PAUSED),
   (4, STATE_ERROR),
   (5, STATE_RETURNING),
   (6, STATE_DOCKED)]

/-- Lookup in an `Int`-keyed dict (used only for `STATE_CODE_TO_STATE`). -/
def lookupState : List (Int × String) → Int → Option String
  | [], _ => Option.none
  | (k, v) :: rest, key => if k = key then some v else lookupState rest key

/-- `SPEED_CODE_TO_NAME` (vacuum.py lines 75-80): int speed codes to speed
name strings. Note the keys are the *codes* (ints) and the values the
*names* (strs). -/
def SPEED_CODE_TO_NAME : List (PyVal × PyVal) :=
  [(.int 0, .str "Silent"),
   (.int 1, .str "Standard"),
   (.int 2, .str "Medium"),
   (.int 3, .str "Turbo")]

/-- Attribute key constant (vacuum.py line 46). -/
def ATTR_FAN_SPEED : String := "fan_speed"

/-- Attribute key constant (vacuum.py line 47). -/
def ATTR_MAIN_BRUSH_LEFT_TIME : String := "main_brush_time_left"

/-- Attribute key constant (vacuum.py line 48). -/
def ATTR_MAIN_BRUSH_LIFE_LEVEL : String := "main_brush_life_level"

/-- Attribute key constant (vacuum.py line 49). -/
def ATTR_SIDE_BRUSH_LEFT_TIME : String := "side_brush_time_left"

/-- Attribute key constant (vacuum.py line 50). -/
def ATTR_SIDE_BRUSH_LIFE_LEVEL : String := "side_brush_life_level"

/-- Attribute key constant (vacuum.py line 51). -/
def ATTR_FILTER_LIFE_LEVEL : String := "filter_life_level"

/-- Attribute key constant (vacuum.py line 52). -/
def ATTR_FILTER_LEFT_TIME : String := "filter_left_time"

/-- Attribute key constant (vacuum.py line 53). -/
def ATTR_CLEANING_TOTAL_TIME : String := "total_cleaning_count"

/-- The status object returned by the device client's `status()` call,
per the contract used in `update` (vacuum.py lines 245-264) and spec
section 6: all fields are ints. -/
structure VacuumStatus where
  status : Int
  battery : Int
  total_clean_count : Int
  fan_speed : Int
  brush_left_time : Int
  brush_life_level : Int
  brush_left_time2 : Int
  brush_life_level2 : Int
  filter_life_level : Int
  filter_left_time : Int
  deriving DecidableEq, Repr

/-- The mutable fields of `MiroboVacuum` set in `__init__`
(vacuum.py lines 104-126); every field starts as Python `None`
(`Option.none`). -/
structure MiroboVacuum where
  fan_speeds : Option (List (PyVal × PyVal))
  fan_speeds_reverse : Option (List (PyVal × PyVal))
  vacuum_state : Option Int
  battery_percentage : Option Int
  current_fan_speed : Option Int
  main_brush_time_left : Option Int
  main_brush_life_level : Option Int
  side_brush_time_left : Option Int
  side_brush_life_level : Option Int
  filter_life_level : Option Int
  filter_left_time : Option Int
  total_clean_count : Option Int
  deriving DecidableEq, Repr

/-- The adapter state produced by `__init__` (vacuum.py lines 104-126):
all fields `None`. -/
def initMirobo : MiroboVacuum :=
  { fan_speeds := Option.none
    fan_speeds_reverse := Option.none
    vacuum_state := Option.none
    battery_percentage := Option.none
    current_fan_speed := Option.none
    main_brush_time_left := Option.none
    main_brush_life_level := Option.none
    side_brush_time_left := Option.none
    side_brush_life_level := Option.none
    filter_life_level := Option.none
    filter_left_time := Option.none
    total_clean_count := Option.none }

/-- The adapter state after the success branch of `update`
(vacuum.py lines 245-264): every snapshot field is overwritten from the
status object, `_fan_speeds` is set to `SPEED_CODE_TO_NAME` (line 248) and
`_fan_speeds_reverse` to its swapped-pair comprehension (line 249). -/
def afterPoll (st : VacuumStatus) : MiroboVacuum :=
  { fan_speeds := some SPEED_CODE_TO_NAME
    fan_speeds_reverse := some (dictReverse SPEED_CODE_TO_NAME)
    vacuum_state := some st.status
    battery_percentage := some st.battery
    current_fan_speed := some st.fan_speed
    main_brush_time_left := some st.brush_left_time
    main_brush_life_level := some st.brush_life_level
    side_brush_time_left := some st.brush_left_time2
    side_brush_life_level := some st.brush_life_level2
    filter_life_level := some st.filter_life_level
    filter_left_time := some st.filter_left_time
    total_clean_count := some st.total_clean_count }

/-- Log entries emitted by the adapter, one constructor per logging call
site in the source. -/
inductive LogEntry where
  | stateCodeNotSupported (code : Int)
  | unableToFindReverse (speed : PyVal)
  | fanSpeedNotRecognized (validSpeeds : List PyVal)
  | commandError (mask : String) (exc : String)
  | gotOSError (exc : String)
  deriving DecidableEq, Repr

/-- Modelled from the spec: the repository's `miio` module (imported at
vacuum.py line 6 but not present under `src/`) defines `DeviceException`,
the device-communication failure kind, which the device client's `status()`
call may raise (spec section 6: "All may raise a device-communication
failure kind"). Spec section 7 names "two error kinds only":
DeviceCommunicationFailure and LowLevelIOFailure (`OSError`); they are
modelled as distinct kinds, so the `except OSError` clause of `update`
does not catch a `DeviceException`. -/
inductive PollErr where
  | osError (msg : String)
  | deviceError (msg : String)
  deriving DecidableEq, Repr

/-- `update` (vacuum.py lines 242-269). The single `self._vacuum.status()`
call is modelled by its outcome `fetch`. On success every snapshot field is
overwritten (`afterPoll`); a raised `OSError` is caught and logged, leaving
the state untouched; a raised `DeviceException` matches no `except` clause
and propagates (`Except.error`). -/
def update (m : MiroboVacuum) (fetch : Except PollErr VacuumStatus) :
    Except String (MiroboVacuum × List LogEntry) :=
  match fetch with
  | .ok st => .ok (afterPoll st, [])
  | .error (.osError e) => .ok (m, [LogEntry.gotOSError e])
  | .error (.deviceError e) => .error e

/-- Python exception kinds that escape the embedded methods uncaught. The
only one reachable here is the `TypeError` raised by `fan_speed in None`
(membership test against a `None` dict). -/
inductive PyErr where
  | typeError
  deriving DecidableEq, Repr

/-- View a field holding a Python int-or-`None` as a `PyVal`. -/
def pyOfOptInt : Option Int → PyVal
  | Option.none => PyVal.none
  | some n => PyVal.int n

/-- Property `state` (vacuum.py lines 135-146): when a poll has stored a
status code, look it up in `STATE_CODE_TO_STATE`; on `KeyError` log once
and return `None`; before any poll the body is skipped and the property
returns `None`. `int(self.vacuum_state)` on the stored int is the
identity. The embedding is total: the property never raises. -/
def state (m : MiroboVacuum) : Option String × List LogEntry :=
  match m.vacuum_state with
  | some code =>
    match lookupState STATE_CODE_TO_STATE code with
    | some s => (some s, [])
    | Option.none => (Option.none, [LogEntry.stateCodeNotSupported code])
  | Option.none => (Option.none, [])

/-- Property `battery_level` (vacuum.py lines 148-152): the stored battery
percentage once a poll has succeeded, `None` before. -/
def battery_level (m : MiroboVacuum) : Option Int :=
  match m.vacuum_state with
  | some _ => m.battery_percentage
  | Option.none => Option.none

/-- Property `fan_speed` (vacuum.py lines 154-164): after a poll, test the
stored speed for membership in `_fan_speeds_reverse` and return the mapped
value on a hit; otherwise log a debug line and return the raw speed. If
`_fan_speeds_reverse` is still `None` while `vacuum_state` is set, the
membership test raises `TypeError`. -/
def fan_speed (m : MiroboVacuum) : Except PyErr (PyVal × List LogEntry) :=
  match m.vacuum_state with
  | Option.none => .ok (PyVal.none, [])
  | some _ =>
    match m.fan_speeds_reverse with
    | Option.none => .error .typeError
    | some rev =>
      let speed := pyOfOptInt m.current_fan_speed
      match dictLookup rev speed with
      | some v => .ok (v, [])
      | Option.none => .ok (speed, [LogEntry.unableToFindReverse speed])

/-- Property `fan_speed_list` (vacuum.py lines 166-169):
`list(self._fan_speeds) if self._fan_speeds else []`. Iterating a Python
dict yields its *keys*; the truthiness test sends both `None` and an empty
dict to `[]`. -/
def fan_speed_list (m : MiroboVacuum) : List PyVal :=
  match m.fan_speeds with
  | Option.none => []
  | some d => if d.isEmpty then [] else d.map Prod.fst

/-- Property `device_state_attributes` (vacuum.py lines 171-184): a
fixed-key dict of the consumable/wear fields once a poll has succeeded,
`None` before. -/
def device_state_attributes (m : MiroboVacuum) :
    Option (List (String × Option Int)) :=
  match m.vacuum_state with
  | Option.none => Option.none
  | some _ =>
    some [(ATTR_FAN_SPEED, m.current_fan_speed),
          (ATTR_MAIN_BRUSH_LEFT_TIME, m.main_brush_time_left),
          (ATTR_MAIN_BRUSH_LIFE_LEVEL, m.main_brush_life_level),
          (ATTR_SIDE_BRUSH_LEFT_TIME, m.side_brush_time_left),
          (ATTR_SIDE_BRUSH_LIFE_LEVEL, m.side_brush_life_level),
          (ATTR_FILTER_LIFE_LEVEL, m.filter_life_level),
          (ATTR_FILTER_LEFT_TIME, m.filter_left_time),
          (ATTR_CLEANING_TOTAL_TIME, m.total_clean_count)]

/-- The device-client calls the adapter can issue (spec section 6 surface:
`find`, `start`, `stop`, `return_home`, `set_fan_speed`). -/
inductive VacCall where
  | find
  | start
  | stop
  | return_home
  | set_fan_speed (speed : PyVal)
  deriving DecidableEq, Repr

/-- `_try_command` (vacuum.py lines 192-199): issue the device call (its
outcome is the explicit argument: success, or a raised `DeviceException`
message); on success return `True`, on `DeviceException` log the masked
error and return `False`. The call itself is recorded in both cases - it
was issued and then either returned or raised. -/
def try_command (mask : String) (call : VacCall) (outcome : Except String Unit) :
    Bool × List VacCall × List LogEntry :=
  match outcome with
  | .ok _ => (true, [call], [])
  | .error exc => (false, [call], [LogEntry.commandError mask exc])

/-- `async_locate` (vacuum.py lines 202-204). -/
def async_locate (o : Except String Unit) : Bool × List VacCall × List LogEntry :=
  try_command "Unable to locate the botvac: %s" VacCall.find o

/-- `async_start` (vacuum.py lines 206-209). -/
def async_start (o : Except String Unit) : Bool × List VacCall × List LogEntry :=
  try_command "Unable to start the vacuum: %s" VacCall.start o

/-- `async_stop` (vacuum.py lines 211-213): forwards to the device
client's `stop` call. -/
def async_stop (o : Except String Unit) : Bool × List VacCall × List LogEntry :=
  try_command "Unable to stop: %s" VacCall.stop o

/-- `async_pause` (vacuum.py lines 215-217): forwards to the device
client's `stop` call (sic - the same call as `async_stop`). -/
def async_pause (o : Except String Unit) : Bool × List VacCall × List LogEntry :=
  try_command "Unable to set start/pause: %s" VacCall.stop o

/-- `async_return_to_base` (vacuum.py lines 219-221). -/
def async_return_to_base (o : Except String Unit) : Bool × List VacCall × List LogEntry :=
  try_command "Unable to return home: %s" VacCall.return_home o

/-- ASCII whitespace stripped by Python `int(str)` before parsing. -/
def isPySpace (c : Char) : Bool :=
  c = ' ' || c = '\t' || c = '\n' || c = '\r'

/-- Drop the longest leading run of characters satisfying `p`. -/
def dropWhileChar (p : Char → Bool) : List Char → List Char
  | [] => []
  | c :: cs => if p c then dropWhileChar p cs else c :: cs

/-- Strip leading and trailing whitespace, as Python `int(str)` does. -/
def pyStrip (l : List Char) : List Char :=
  ((dropWhileChar isPySpace l).reverse |> dropWhileChar isPySpace).reverse

/-- ASCII decimal digit test. -/
def isAsciiDigit (c : Char) : Bool :=
  48 ≤ c.toNat && c.toNat ≤ 57

/-- Value of a string of ASCII decimal digits. -/
def digitsToNat (l : List Char) : Nat :=
  l.foldl (fun n c => 10 * n + (c.toNat - 48)) 0

/-- Parse a stripped character list as Python `int(str)` does: an optional
sign followed by at least one decimal digit. (Digit-group underscores,
accepted by CPython between digits, are not modelled; no claim depends on
them.) -/
def pyIntOfChars (l : List Char) : Option Int :=
  match pyStrip l with
  | [] => Option.none
  | c :: cs =>
    if c = '-' then
      if !cs.isEmpty && cs.all isAsciiDigit then
        some (-(digitsToNat cs : Int))
      else Option.none
    else if c = '+' then
      if !cs.isEmpty && cs.all isAsciiDigit then
        some ((digitsToNat cs : Int))
      else Option.none
    else
      if (c :: cs).all isAsciiDigit then
        some ((digitsToNat (c :: cs) : Int))
      else Option.none

/-- Python `int(s)` on a string: `some` the parsed value, or `Option.none`
when a `ValueError` is raised. -/
def pyInt (s : String) : Option Int :=
  pyIntOfChars s.data

/-- `async_set_fan_speed` (vacuum.py lines 223-239). The membership test
`fan_speed in self._fan_speeds` raises `TypeError` while `_fan_speeds` is
still `None` (before any successful poll). On a dict hit the mapped value
is forwarded; otherwise `int(fan_speed)` is attempted, a `ValueError`
being caught to log the valid-speeds error (payload: the current
`fan_speed_list`) and return without any device call. A resolved speed is
forwarded to the device client's `set_fan_speed` through `_try_command`.
The method never assigns to `self` (the local rebinding of `fan_speed`
only), so the adapter state is returned unchanged. -/
def async_set_fan_speed (m : MiroboVacuum) (fs : String) (o : Except String Unit) :
    Except PyErr (MiroboVacuum × List VacCall × List LogEntry) :=
  match m.fan_speeds with
  | Option.none => .error .typeError
  | some d =>
    match dictLookup d (.str fs) with
    | some v =>
      let r := try_command "Unable to set fan speed: %s" (.set_fan_speed v) o
      .ok (m, r.2.1, r.2.2)
    | Option.none =>
      match pyInt fs with
      | some n =>
        let r := try_command "Unable to set fan speed: %s" (.set_fan_speed (.int n)) o
        .ok (m, r.2.1, r.2.2)
      | Option.none => .ok (m, [], [LogEntry.fanSpeedNotRecognized (fan_speed_list m)])

/-- A concrete status object: given status code and fan-speed code, with
fixed nominal values for the remaining device fields. Used to instantiate
theorems at concrete inputs. -/
def mkStatus (code fanCode : Int) : VacuumStatus :=
  { status := code
    battery := 95
    total_clean_count := 12
    fan_speed := fanCode
    brush_left_time := 100
    brush_life_level := 80
    brush_left_time2 := 50
    brush_life_level2 := 40
    filter_life_level := 60
    filter_left_time := 30 }

/-- The adapter state left behind by a poll whose status fetch raised
`OSError`. The `Except.error` branch is unreachable for an `osError`
fetch (only a `deviceError` fetch produces it) and is mapped to the input
state so the definition is total. -/
def pollFailState (m : MiroboVacuum) (e : String) : MiroboVacuum :=
  match update m (.error (.osError e)) with
  | .ok p => p.1
  | .error _ => m

/-- Claim C1 (code_bug, actual behavior): after a successful poll,
`async_set_fan_speed "Turbo"` issues zero device calls and logs the
not-recognized error - the membership test checks `"Turbo"` against the
int-keyed `SPEED_CODE_TO_NAME` dict, never hits, and `int("Turbo")`
raises `ValueError` - while `async_set_fan_speed "7"` parses to 7 and
issues exactly one `set_fan_speed 7` device call. The claim's name path
(Turbo resolving to code 3 with one device call) does not happen. -/
theorem set_fan_speed_turbo_vs_numeric (st : VacuumStatus) (o : Except String Unit) :
    async_set_fan_speed (afterPoll st) "Turbo" o =
      .ok (afterPoll st, [],
        [LogEntry.fanSpeedNotRecognized [.int 0, .int 1, .int 2, .int 3]]) ∧
    ∃ logs, async_set_fan_speed (afterPoll st) "7" o =
      .ok (afterPoll st, [VacCall.set_fan_speed (.int 7)], logs) := by
  cases o with
  | ok _ => exact ⟨rfl, [], rfl⟩
  | error e => exact ⟨rfl, [LogEntry.commandError "Unable to set fan speed: %s" e], rfl⟩

/-- Claim C2 (code_bug, actual behavior): for every stored fan-speed code,
the `fan_speed` property returns the raw integer code and emits the
"Unable to find reverse" debug log - `_fan_speeds_reverse` maps names to
codes (string keys), so the int speed never matches - instead of the
matching name the claim describes. -/
theorem fan_speed_returns_raw_code (st : VacuumStatus) :
    fan_speed (afterPoll st) =
      .ok (.int st.fan_speed, [LogEntry.unableToFindReverse (.int st.fan_speed)]) := rfl

/-- Claim C3 (code_bug, actual behavior): after any successful poll,
`fan_speed_list` returns the four *integer codes* `[0, 1, 2, 3]` (the keys
of the int-keyed `SPEED_CODE_TO_NAME` dict), not the four names the claim
describes; before the first poll it returns the empty list (that part of
the claim holds). -/
theorem fan_speed_list_codes_not_names (st : VacuumStatus) :
    fan_speed_list (afterPoll st) = [.int 0, .int 1, .int 2, .int 3] ∧
    fan_speed_list initMirobo = [] :=
  ⟨rfl, rfl⟩

/-- Claim C4 (counterexample): at the stored status code 0 (outside 1-6),
the `state` property returns `Option.none` - no label at all, in
particular not the string label `"unknown"` - together with exactly one
diagnostic log entry. -/
theorem state_unknown_code_counterexample :
    state (afterPoll (mkStatus 0 1)) =
      (Option.none, [LogEntry.stateCodeNotSupported 0]) ∧
    (state (afterPoll (mkStatus 0 1))).1 ≠ some "unknown" :=
  ⟨rfl, by decide⟩

/-- Claim C4 (amended): for every stored status code outside 1-6, the
`state` property returns no value (Python `None`, which the host platform
surfaces as the unknown state) and emits exactly one diagnostic log
entry; the embedding is a total function, so the property never raises. -/
theorem state_unknown_code_none_one_log (code fanCode : Int)
    (h : code < 1 ∨ 6 < code) :
    state (afterPoll (mkStatus code fanCode)) =
      (Option.none, [LogEntry.stateCodeNotSupported code]) := by
  have h1 : ¬ ((1 : Int) = code) := by omega
  have h2 : ¬ ((2 : Int) = code) := by omega
  have h3 : ¬ ((3 : Int) = code) := by omega
  have h4 : ¬ ((4 : Int) = code) := by omega
  have h5 : ¬ ((5 : Int) = code) := by omega
  have h6 : ¬ ((6 : Int) = code) := by omega
  have hl : lookupState STATE_CODE_TO_STATE code = Option.none := by
    simp [STATE_CODE_TO_STATE, lookupState, h1, h2, h3, h4, h5, h6]
  have hstep : state (afterPoll (mkStatus code fanCode)) =
      (match lookupState STATE_CODE_TO_STATE code with
       | some s => (some s, [])
       | Option.none => (Option.none, [LogEntry.stateCodeNotSupported code])) := rfl
  rw [hstep, hl]

/-- Claim C4 (witness): the amended theorem applied at the concrete
out-of-range status code 7. -/
theorem state_unknown_code_none_one_log_witness :
    ((7 : Int) < 1 ∨ 6 < (7 : Int)) ∧
    state (afterPoll (mkStatus 7 1)) =
      (Option.none, [LogEntry.stateCodeNotSupported 7]) :=
  ⟨by decide, state_unknown_code_none_one_log 7 1 (by decide)⟩

/-- Claim C5: for every status code 1-6 stored by a successful poll, the
`state` property returns the exact corresponding platform label -
1 cleaning, 2 idle, 3 paused, 4 error, 5 returning, 6 docked - with no
diagnostic log, whatever the other polled fields are. -/
theorem state_maps_codes_one_to_six (st : VacuumStatus) :
    state (afterPoll { st with status := 1 }) = (some "cleaning", []) ∧
    state (afterPoll { st with status := 2 }) = (some "idle", []) ∧
    state (afterPoll { st with status := 3 }) = (some "paused", []) ∧
    state (afterPoll { st with status := 4 }) = (some "error", []) ∧
    state (afterPoll { st with status := 5 }) = (some "returning", []) ∧
    state (afterPoll { st with status := 6 }) = (some "docked", []) :=
  ⟨rfl, rfl, rfl, rfl, rfl, rfl⟩

/-- Claim C6: when the status fetch inside `update` raises an `OSError`,
the error is logged and the returned adapter state is exactly the
pre-failure state - every snapshot field retained - so every derived
property (`state`, `battery_level`, `fan_speed`, `fan_speed_list`,
`device_state_attributes`) is unchanged. -/
theorem update_os_error_stale_read (m : MiroboVacuum) (e : String) :
    update m (.error (.osError e)) = .ok (m, [LogEntry.gotOSError e]) ∧
    pollFailState m e = m ∧
    state (pollFailState m e) = state m ∧
    battery_level (pollFailState m e) = battery_level m ∧
    fan_speed (pollFailState m e) = fan_speed m ∧
    fan_speed_list (pollFailState m e) = fan_speed_list m ∧
    device_state_attributes (pollFailState m e) = device_state_attributes m :=
  ⟨rfl, rfl, rfl, rfl, rfl, rfl, rfl⟩

/-- Claim C7 (counterexample): a `DeviceException` raised by the status
call inside `update` is *not* caught (the `except` clause names only
`OSError`) and propagates out of the adapter, here at the concrete
pre-poll state and exception message "timeout". -/
theorem update_device_error_propagates :
    update initMirobo (.error (.deviceError "timeout")) = Except.error "timeout" := rfl

/-- Claim C7 (amended): a `DeviceException` raised during any command is
caught by `_try_command` and converted to a `false` result with one
logged error, and an `OSError` raised during a poll is caught in `update`
and converted to a logged no-op; but a `DeviceException` raised by the
status call propagates out of `update` uncaught. -/
theorem error_guard_and_poll_error_paths (mask : String) (call : VacCall)
    (e : String) (m : MiroboVacuum) (e2 e3 : String) :
    try_command mask call (.error e) = (false, [call], [LogEntry.commandError mask e]) ∧
    update m (.error (.osError e2)) = .ok (m, [LogEntry.gotOSError e2]) ∧
    update m (.error (.deviceError e3)) = .error e3 :=
  ⟨rfl, rfl, rfl⟩

/-- Claim C8 (counterexample): after a successful poll,
`async_set_fan_speed "bogus"` logs the not-recognized error whose
valid-speeds payload is the integer-code list `[0, 1, 2, 3]`, which is
not the list of the four speed names the claim describes. -/
theorem set_fan_speed_bogus_lists_codes_not_names :
    async_set_fan_speed (afterPoll (mkStatus 2 1)) "bogus" (.ok ()) =
      .ok (afterPoll (mkStatus 2 1), [],
        [LogEntry.fanSpeedNotRecognized [.int 0, .int 1, .int 2, .int 3]]) ∧
    [PyVal.int 0, PyVal.int 1, PyVal.int 2, PyVal.int 3] ≠
      [PyVal.str "Silent", PyVal.str "Standard", PyVal.str "Medium", PyVal.str "Turbo"] :=
  ⟨rfl, by decide⟩

/-- Claim C8 (amended): after a successful poll, for every argument that
is not parseable as an integer (no string argument ever matches the
int-keyed speed dict), `async_set_fan_speed` issues zero device calls,
raises no exception, leaves the adapter state unchanged, and logs one
error listing the valid speeds as currently exposed by `fan_speed_list`
(the integer codes 0-3, not the names). -/
theorem set_fan_speed_unparsable_no_call (st : VacuumStatus) (fs : String)
    (o : Except String Unit) (h : pyInt fs = Option.none) :
    async_set_fan_speed (afterPoll st) fs o =
      .ok (afterPoll st, [],
        [LogEntry.fanSpeedNotRecognized [.int 0, .int 1, .int 2, .int 3]]) := by
  have hstep : async_set_fan_speed (afterPoll st) fs o =
      (match pyInt fs with
       | some n =>
         let r := try_command "Unable to set fan speed: %s" (.set_fan_speed (.int n)) o
         Except.ok (afterPoll st, r.2.1, r.2.2)
       | Option.none =>
         Except.ok (afterPoll st, [],
           [LogEntry.fanSpeedNotRecognized (fan_speed_list (afterPoll st))])) := rfl
  rw [hstep, h]
  rfl

/-- Claim C8 (witness): the amended theorem applied at the concrete
argument "bogus" after a concrete poll. -/
theorem set_fan_speed_unparsable_no_call_witness :
    pyInt "bogus" = Option.none ∧
    async_set_fan_speed (afterPoll (mkStatus 6 2)) "bogus" (.error "dev") =
      .ok (afterPoll (mkStatus 6 2), [],
        [LogEntry.fanSpeedNotRecognized [.int 0, .int 1, .int 2, .int 3]]) :=
  ⟨by decide, set_fan_speed_unparsable_no_call (mkStatus 6 2) "bogus" (.error "dev") (by decide)⟩

/-- Claim C9: `async_pause` and `async_stop` issue the identical device
call list - exactly one `stop` call each - for every device outcome, so
their side effects on the device client are indistinguishable. -/
theorem pause_and_stop_issue_same_call (o : Except String Unit) :
    (async_pause o).2.1 = (async_stop o).2.1 ∧ (async_pause o).2.1 = [VacCall.stop] := by
  cases o <;> exact ⟨rfl, rfl⟩

/-- Claim C10: before any successful poll (`_fan_speeds` still the
initial `None`), `async_set_fan_speed` raises a `TypeError` out of the
command at the membership test, for every argument and device outcome -
no log entry is emitted and no device call is issued. -/
theorem set_fan_speed_before_poll_raises (fs : String) (o : Except String Unit) :
    async_set_fan_speed initMirobo fs o = .error .typeError := rfl

end XiaomiVacuum
